import Mathlib

/-!
Shallow embedding of the chat-gateway backend (`src/main.py`) and proofs
about its request-validation, rate-limiting and upstream-proxy pipeline.

Modelling conventions:
* Python `time.time()` floats are modelled as rationals (`ℚ`).
* The environment-derived constants `MAX_TOKENS`, `RATE_LIMIT_REQUESTS`
  and `RATE_LIMIT_PERIOD` are fields of a `Config` record, so theorems
  hold for every configuration; `cfgDefault` holds the defaults from
  `main.py` (2048, 100, 60).
* The process-global `rate_limit_store` (a `defaultdict(list)`) is an
  explicit state value threaded through the functions: a list of keys
  known to the dict plus a total lookup function defaulting to `[]`.
* The upstream OpenAI client is a function parameter
  `UpstreamCall → Except String Completion`; an exception raised by the
  SDK is the `Except.error` case carrying the exception text.
-/

/-- Environment configuration read at startup (`main.py` lines 35-37). -/
structure Config where
  maxTokens : Int
  rateLimitRequests : Nat
  rateLimitPeriod : ℚ
deriving Repr, DecidableEq

/-- The defaults from `main.py`: MAX_TOKENS=2048, RATE_LIMIT_REQUESTS=100,
RATE_LIMIT_PERIOD=60. -/
def cfgDefault : Config := ⟨2048, 100, 60⟩

/-- State of the module-level `rate_limit_store = defaultdict(list)`:
`keys` are the keys present in the dict (a `defaultdict` inserts a key as
soon as it is subscripted), `entries` gives each key's list of admitted
request timestamps (`[]` for keys not present). -/
structure RateLimitStore where
  keys : List String
  entries : String → List ℚ

/-- The store at process start: the empty dict. -/
def initStore : RateLimitStore := ⟨[], fun _ => []⟩

/-- Embedding of `check_rate_limit` (`main.py` lines 42-58): prune the
client's recorded timestamps to those with `current_time - req_time <
RATE_LIMIT_PERIOD`, deny without appending when at least
`RATE_LIMIT_REQUESTS` remain, otherwise append `current_time` and admit.
Subscripting the `defaultdict` inserts the key, so the key is recorded as
present in either branch. Returns the admit decision and updated store. -/
def check_rate_limit (cfg : Config) (store : RateLimitStore)
    (client_ip : String) (current_time : ℚ) : Bool × RateLimitStore :=
  let pruned := (store.entries client_ip).filter
    fun req_time => decide (current_time - req_time < cfg.rateLimitPeriod)
  let keys' := if client_ip ∈ store.keys then store.keys else client_ip :: store.keys
  if cfg.rateLimitRequests ≤ pruned.length then
    (false, ⟨keys', fun k => if k = client_ip then pruned else store.entries k⟩)
  else
    (true, ⟨keys', fun k => if k = client_ip then pruned ++ [current_time]
                            else store.entries k⟩)

example : (check_rate_limit cfgDefault initStore "1.2.3.4" 0).1 = true := by decide

example :
    (check_rate_limit cfgDefault initStore "1.2.3.4" 0).2.entries "1.2.3.4" = [0] := by
  decide

/-- A chat message as received on the wire: a `role` string and a
`content` string (`main.py` lines 98-100 declare the constraints, checked
by `validateOk` below). -/
structure Message where
  role : String
  content : String
deriving Repr, DecidableEq

/-- A raw (pre-validation) `POST /api/chat` body. `none` in an optional
field means the field was absent from the JSON payload. -/
structure RawChatRequest where
  messages : List Message
  model : Option String
  max_tokens : Option Int
  temperature : Option ℚ
deriving Repr, DecidableEq

/-- A validated `ChatRequest` (`main.py` lines 102-106) with the pydantic
defaults filled in: model `gpt-3.5-turbo`, max_tokens 1024,
temperature 1.0. -/
structure ChatRequest where
  messages : List Message
  model : String
  max_tokens : Int
  temperature : ℚ
deriving Repr, DecidableEq

/-- The regex `^(user|assistant|system)$` on `Message.role`
(`main.py` line 99). -/
def validRole (role : String) : Bool :=
  role == "user" || role == "assistant" || role == "system"

/-- The pydantic field constraints on one `Message` (`main.py` lines
99-100): role matches the pattern, content length in [1, 10000]. -/
def validMessage (m : Message) : Bool :=
  validRole m.role && decide (1 ≤ m.content.length) &&
    decide (m.content.length ≤ 10000)

/-- The pydantic validation of a raw `ChatRequest` body (`main.py` lines
102-106): `messages` has between 1 and 50 items, each valid; `max_tokens`
when present is in [1, MAX_TOKENS]; `temperature` when present is in
[0, 2]. The `model` field carries no constraint. -/
def validateOk (cfg : Config) (r : RawChatRequest) : Bool :=
  decide (1 ≤ r.messages.length) && decide (r.messages.length ≤ 50) &&
  r.messages.all validMessage &&
  (match r.max_tokens with
   | none => true
   | some n => decide (1 ≤ n) && decide (n ≤ cfg.maxTokens)) &&
  (match r.temperature with
   | none => true
   | some t => decide (0 ≤ t) && decide (t ≤ 2))

/-- FastAPI's parsing of the request body into a `ChatRequest`: on
constraint violation the framework rejects with 422 before the handler
runs (`none` here); otherwise the defaults of `main.py` lines 104-106 are
filled in. -/
def validate (cfg : Config) (r : RawChatRequest) : Option ChatRequest :=
  if validateOk cfg r then
    some { messages := r.messages
           model := r.model.getD "gpt-3.5-turbo"
           max_tokens := r.max_tokens.getD 1024
           temperature := r.temperature.getD 1 }
  else none

/-- The supported-model allow-list (`main.py` lines 169-176). -/
def valid_models : List String :=
  ["gpt-3.5-turbo", "gpt-4", "gpt-4-turbo-preview", "gpt-4-turbo",
   "gpt-4o", "gpt-4o-mini"]

/-- The model normalization of `main.py` lines 178-180: an unrecognized
model is silently replaced by the default `gpt-3.5-turbo`. -/
def resolveModel (m : String) : String :=
  if m ∈ valid_models then m else "gpt-3.5-turbo"

/-- Token usage counts as reported by the provider
(`response.usage`, read at `main.py` lines 202-206). -/
structure Usage where
  prompt_tokens : Int
  completion_tokens : Int
  total_tokens : Int
deriving Repr, DecidableEq

/-- One element of `response.choices`; the handler reads
`choices[0].message.content` (`main.py` line 199). -/
structure Choice where
  message_content : String
deriving Repr, DecidableEq

/-- A completion object returned by the provider SDK: the choices, the
provider-reported model identifier, and usage when reported. -/
structure Completion where
  choices : List Choice
  model : String
  usage : Option Usage
deriving Repr, DecidableEq

/-- The argument record of `client.chat.completions.create`
(`main.py` lines 191-196). -/
structure UpstreamCall where
  model : String
  messages : List Message
  max_tokens : Int
  temperature : ℚ
deriving Repr, DecidableEq

/-- Body of the 200 response (`ChatResponse`, `main.py` lines 108-111). -/
structure ChatResponse where
  response : String
  model : String
  usage : Option Usage
deriving Repr, DecidableEq

/-- Outcome of a request: a 200 with a `ChatResponse` body, or an HTTP
error status with a `detail` string. -/
inductive HandlerResult where
  | success (body : ChatResponse)
  | httpError (status : Nat) (detail : String)
deriving Repr, DecidableEq

/-- HTTP status of a `HandlerResult` (a `success` is a 200). -/
def HandlerResult.status : HandlerResult → Nat
  | .success _ => 200
  | .httpError s _ => s

/-- The fixed 429 detail string (`main.py` line 164). -/
def rateLimitDetail : String := "Rate limit exceeded. Please try again later."

/-- The fixed generic 500 detail string (`main.py` line 222). -/
def genericDetail : String :=
  "An error occurred while processing your request. Please try again."

/-- Embedding of the body of the `chat` endpoint (`main.py` lines
152-223), run after FastAPI has already validated the payload into a
`ChatRequest`. The upstream SDK is the parameter `upstream`; an
`Except.error` is an exception raised by the SDK call, carrying the
exception text, and an empty `choices` list makes `choices[0]` raise,
which the same `except` block turns into the generic 500. Returns the
HTTP outcome together with the rate-limit store after the call. -/
def chat (cfg : Config) (store : RateLimitStore) (client_ip : String)
    (now : ℚ) (upstream : UpstreamCall → Except String Completion)
    (request : ChatRequest) : HandlerResult × RateLimitStore :=
  let checked := check_rate_limit cfg store client_ip now
  if checked.1 = false then
    (.httpError 429 rateLimitDetail, checked.2)
  else
    let model := resolveModel request.model
    match upstream { model := model, messages := request.messages,
                     max_tokens := request.max_tokens,
                     temperature := request.temperature } with
    | .error _ => (.httpError 500 genericDetail, checked.2)
    | .ok completion =>
      match completion.choices with
      | [] => (.httpError 500 genericDetail, checked.2)
      | choice :: _ =>
        (.success { response := choice.message_content,
                    model := completion.model,
                    usage := completion.usage }, checked.2)

/-- The detail FastAPI attaches to a 422 body-validation rejection
(the framework-generated description of the violated constraint). -/
def validationDetail : String := "request body failed validation"

/-- The full `POST /api/chat` pipeline as the framework executes it:
FastAPI parses and validates the body into `ChatRequest` before the
handler coroutine is invoked (the `request: ChatRequest` parameter at
`main.py` line 153), so a constraint violation yields a 422 without the
handler — and hence `check_rate_limit` — ever running; only a valid body
reaches the handler. -/
def handle_api_chat (cfg : Config) (store : RateLimitStore)
    (client_ip : String) (now : ℚ)
    (upstream : UpstreamCall → Except String Completion)
    (raw : RawChatRequest) : HandlerResult × RateLimitStore :=
  match validate cfg raw with
  | none => (.httpError 422 validationDetail, store)
  | some request => chat cfg store client_ip now upstream request

/-- Body of the `GET /health` response (`main.py` lines 125-133). -/
structure HealthBody where
  status : String
  service : String
  version : String
  environment : String
deriving Repr, DecidableEq

/-- Embedding of `health_check` (`main.py` lines 125-133): a static body,
always status 200, computed without consulting the upstream client (the
function takes no upstream argument). -/
def health_check (environment : String) : Nat × HealthBody :=
  (200, ⟨"healthy", "AI Chatbot", "1.0.0", environment⟩)

/-- Body of the `GET /api/status` response (`main.py` lines 146-150). -/
structure StatusBody where
  api_available : Bool
  environment : String
  max_tokens : Int
deriving Repr, DecidableEq

/-- Embedding of `api_status` (`main.py` lines 135-150): the probe is the
outcome of `client.models.list()`; any exception it raises is swallowed
into `api_available = false` and the endpoint still answers 200 with the
configured environment and MAX_TOKENS. -/
def api_status (cfg : Config) (environment : String)
    (probe : Except String Unit) : Nat × StatusBody :=
  match probe with
  | .ok _ => (200, ⟨true, environment, cfg.maxTokens⟩)
  | .error _ => (200, ⟨false, environment, cfg.maxTokens⟩)

/-- Iterate `check_rate_limit` over a sequence of (client key, time)
calls, threading the store. -/
def runCalls (cfg : Config) : RateLimitStore → List (String × ℚ) → RateLimitStore
  | store, [] => store
  | store, (k, t) :: rest => runCalls cfg (check_rate_limit cfg store k t).2 rest

/-! Concrete fixtures used by witnesses and counterexamples. -/

/-- A configuration with rate-limit capacity 1 and period 60. -/
def cfgOne : Config := ⟨2048, 1, 60⟩

/-- A configuration with rate-limit capacity 2 and period 60. -/
def cfgTwo : Config := ⟨2048, 2, 60⟩

/-- A store in which client "c" has one admitted timestamp, at time 0. -/
def storeC : RateLimitStore := ⟨["c"], fun k => if k = "c" then [0] else []⟩

/-- A store in which client "c" has admitted timestamps 0 and 30. -/
def storeC2 : RateLimitStore := ⟨["c"], fun k => if k = "c" then [0, 30] else []⟩

/-- A structurally invalid raw body: zero messages. -/
def rawInvalid : RawChatRequest := ⟨[], none, none, none⟩

/-- A valid raw body: a single user message, all optional fields absent. -/
def rawHello : RawChatRequest := ⟨[⟨"user", "Hello"⟩], none, none, none⟩

/-- `rawHello` after validation, with the defaults filled in. -/
def reqHello : ChatRequest := ⟨[⟨"user", "Hello"⟩], "gpt-3.5-turbo", 1024, 1⟩

/-- A valid raw body asking for the unsupported model "gpt-5". -/
def rawGpt5 : RawChatRequest := ⟨[⟨"user", "Hello"⟩], some "gpt-5", none, none⟩

/-- The stubbed provider reply from spec §8 property 6: one choice with
content "hi", model `gpt-3.5-turbo`, usage 5/1/6. -/
def completionHi : Completion := ⟨[⟨"hi"⟩], "gpt-3.5-turbo", some ⟨5, 1, 6⟩⟩

/-- An upstream stub that always answers `completionHi`. -/
def upstreamStub : UpstreamCall → Except String Completion := fun _ => .ok completionHi

/-- An upstream stub that is never supposed to be reached. -/
def upstreamUnused : UpstreamCall → Except String Completion :=
  fun _ => .error "unreachable"

/-- An upstream stub that raises a transport failure. -/
def upstreamDown : UpstreamCall → Except String Completion :=
  fun _ => .error "Connection refused"



/-! Theorems. -/

/-- Claim C7 counterexample: with RATE_LIMIT_PERIOD = 60, capacity 1, and
client "c" holding the single recorded timestamp 0, a call at time 60 —
when that timestamp is exactly RATE_LIMIT_PERIOD seconds old — prunes it
and admits, leaving the record `[60]`. The claim predicts the timestamp is
retained, so the call would have to deny (capacity 1 already used) and
leave the record `[0]`. -/
theorem check_rate_limit_boundary_cex :
    (check_rate_limit cfgOne storeC "c" 60).1 = true ∧
    (check_rate_limit cfgOne storeC "c" 60).2.entries "c" = [60] := by
  norm_num [check_rate_limit, storeC, cfgOne, List.filter]

/-- Claim C7 (amended): each call `check_rate_limit(key)` at time `now`
first removes from the key's record exactly those timestamps `t` with
`now - t ≥ RATE_LIMIT_PERIOD` — a timestamp exactly RATE_LIMIT_PERIOD
seconds old is removed, not retained; then, if at least
RATE_LIMIT_REQUESTS timestamps remain, it returns false without appending
anything, and otherwise it appends `now` to the record and returns
true. -/
theorem check_rate_limit_step (cfg : Config) (store : RateLimitStore)
    (key : String) (now : ℚ) :
    if cfg.rateLimitRequests ≤
        ((store.entries key).filter fun t =>
          decide (¬ cfg.rateLimitPeriod ≤ now - t)).length then
      (check_rate_limit cfg store key now).1 = false ∧
      (check_rate_limit cfg store key now).2.entries key =
        (store.entries key).filter fun t => decide (¬ cfg.rateLimitPeriod ≤ now - t)
    else
      (check_rate_limit cfg store key now).1 = true ∧
      (check_rate_limit cfg store key now).2.entries key =
        ((store.entries key).filter fun t =>
          decide (¬ cfg.rateLimitPeriod ≤ now - t)) ++ [now] := by
  have hfil : ((store.entries key).filter fun t =>
      decide (¬ cfg.rateLimitPeriod ≤ now - t))
      = (store.entries key).filter fun t =>
          decide (now - t < cfg.rateLimitPeriod) :=
    List.filter_congr fun t _ => by simp [not_le]
  rw [hfil]
  simp only [check_rate_limit]
  split
  · simp
  · simp

/-- Claim C7 witness: instantiating the amended characterization at the
concrete counterexample input shows the timestamp exactly 60 seconds old
is removed and the call admits, appending the call time. -/
theorem check_rate_limit_step_witness :
    (check_rate_limit cfgOne storeC "c" 60).2.entries "c" =
      ((storeC.entries "c").filter fun t =>
        decide (¬ cfgOne.rateLimitPeriod ≤ 60 - t)) ++ [60] := by
  have h := check_rate_limit_step cfgOne storeC "c" 60
  rw [if_neg (by norm_num [storeC, cfgOne, List.filter])] at h
  exact h.2

/-- Claim C2: for any client key, (deny at capacity) if the key's record
holds exactly RATE_LIMIT_REQUESTS timestamps and every one of them is
still inside the trailing RATE_LIMIT_PERIOD window at `now`, the call at
`now` is denied; (resumption) if the window has slid past the oldest of
those timestamps — its age exceeds RATE_LIMIT_PERIOD — the call is
admitted again. -/
theorem rate_limit_window (cfg : Config) (store : RateLimitStore) (key : String) :
    (∀ now : ℚ, (store.entries key).length = cfg.rateLimitRequests →
      (∀ t ∈ store.entries key, now - t < cfg.rateLimitPeriod) →
      (check_rate_limit cfg store key now).1 = false) ∧
    (∀ now t₀ : ℚ, (store.entries key).length = cfg.rateLimitRequests →
      t₀ ∈ store.entries key → cfg.rateLimitPeriod < now - t₀ →
      (check_rate_limit cfg store key now).1 = true) := by
  constructor
  · intro now hlen hall
    have hfil : (store.entries key).filter
        (fun t => decide (now - t < cfg.rateLimitPeriod)) = store.entries key :=
      List.filter_eq_self.mpr fun a ha => decide_eq_true (hall a ha)
    simp only [check_rate_limit, hfil, hlen, le_refl, if_pos]
  · intro now t₀ hlen hmem hslide
    have hnot : (decide (now - t₀ < cfg.rateLimitPeriod)) ≠ true := by
      simp only [ne_eq, decide_eq_true_eq]
      exact not_lt.mpr (le_of_lt hslide)
    have hlt : ((store.entries key).filter
        (fun t => decide (now - t < cfg.rateLimitPeriod))).length
        < (store.entries key).length := by
      refine Nat.lt_of_le_of_ne (List.length_filter_le _ _) fun heq => ?_
      exact hnot (List.filter_length_eq_length.mp heq t₀ hmem)
    rw [hlen] at hlt
    simp only [check_rate_limit, if_neg (Nat.not_le.mpr hlt)]

/-- Claim C2 witness: with capacity 2 and period 60, client "c" holding
timestamps 0 and 30 is denied at time 50 (both inside the window), and
admitted at time 70 (the window has slid past the oldest timestamp 0). -/
theorem rate_limit_window_witness :
    (check_rate_limit cfgTwo storeC2 "c" 50).1 = false ∧
    (check_rate_limit cfgTwo storeC2 "c" 70).1 = true := by
  constructor
  · exact (rate_limit_window cfgTwo storeC2 "c").1 50 (by decide)
      (by norm_num [storeC2, cfgTwo])
  · exact (rate_limit_window cfgTwo storeC2 "c").2 70 0 (by decide)
      (by decide) (by norm_num [cfgTwo])

/-- One call keeps every key's record within the capacity bound. -/
theorem check_rate_limit_entries_le (cfg : Config) (store : RateLimitStore)
    (k : String) (t : ℚ) (key : String)
    (h : (store.entries key).length ≤ cfg.rateLimitRequests) :
    ((check_rate_limit cfg store k t).2.entries key).length ≤ cfg.rateLimitRequests := by
  simp only [check_rate_limit]
  split
  · rename_i hfull
    by_cases hk : key = k
    · subst hk
      simpa using le_trans (List.length_filter_le _ _) h
    · simpa [hk] using h
  · rename_i hroom
    by_cases hk : key = k
    · subst hk
      simp only [not_le] at hroom
      simp
      omega
    · simpa [hk] using h

/-- One call never removes a key from the store. -/
theorem check_rate_limit_keys_mono (cfg : Config) (store : RateLimitStore)
    (k : String) (t : ℚ) :
    store.keys ⊆ (check_rate_limit cfg store k t).2.keys := by
  simp only [check_rate_limit]
  split <;> split <;> simp [List.subset_cons_of_subset, List.Subset.refl]

/-- One call inserts the queried key into the store (also on a deny). -/
theorem check_rate_limit_key_mem (cfg : Config) (store : RateLimitStore)
    (k : String) (t : ℚ) :
    k ∈ (check_rate_limit cfg store k t).2.keys := by
  simp only [check_rate_limit]
  split <;> split <;> simp_all

/-- The capacity bound is preserved along any sequence of calls. -/
theorem runCalls_entries_le (cfg : Config) (calls : List (String × ℚ))
    (store : RateLimitStore)
    (h : ∀ key, (store.entries key).length ≤ cfg.rateLimitRequests) :
    ∀ key, ((runCalls cfg store calls).entries key).length ≤ cfg.rateLimitRequests := by
  induction calls generalizing store with
  | nil => exact h
  | cons c rest ih =>
    exact ih _ fun key => check_rate_limit_entries_le cfg store c.1 c.2 key (h key)

/-- Keys only accumulate along a sequence of calls. -/
theorem runCalls_keys_mono (cfg : Config) (calls : List (String × ℚ))
    (store : RateLimitStore) :
    store.keys ⊆ (runCalls cfg store calls).keys := by
  induction calls generalizing store with
  | nil => exact List.Subset.refl _
  | cons c rest ih =>
    exact List.Subset.trans (check_rate_limit_keys_mono cfg store c.1 c.2) (ih _)

/-- Every key queried during a sequence of calls is in the final store. -/
theorem runCalls_queried_mem (cfg : Config) (calls : List (String × ℚ))
    (store : RateLimitStore) :
    ∀ k ∈ calls.map Prod.fst, k ∈ (runCalls cfg store calls).keys := by
  induction calls generalizing store with
  | nil => intro k hk; simp at hk
  | cons c rest ih =>
    intro k hk
    rcases List.mem_cons.mp hk with hk | hk
    · subst hk
      exact runCalls_keys_mono cfg rest _ (check_rate_limit_key_mem cfg store c.1 c.2)
    · exact ih _ k hk

/-- Claim C10: starting from the empty store, after any sequence of
`check_rate_limit` calls every key's recorded-timestamp list has length at
most RATE_LIMIT_REQUESTS; every queried key is present in the final store
(keys are never removed — one call only grows the key set); and a denied
call still mutates the queried key's record, replacing it by its pruned
version, while inserting the key even then. -/
theorem rate_limit_store_invariants (cfg : Config) (calls : List (String × ℚ)) :
    (∀ key, ((runCalls cfg initStore calls).entries key).length ≤ cfg.rateLimitRequests) ∧
    (∀ k ∈ calls.map Prod.fst, k ∈ (runCalls cfg initStore calls).keys) ∧
    (∀ store : RateLimitStore, ∀ k t, store.keys ⊆ (check_rate_limit cfg store k t).2.keys) ∧
    (∀ store : RateLimitStore, ∀ k t, (check_rate_limit cfg store k t).1 = false →
      (check_rate_limit cfg store k t).2.entries k =
        (store.entries k).filter (fun u => decide (t - u < cfg.rateLimitPeriod)) ∧
      k ∈ (check_rate_limit cfg store k t).2.keys) := by
  refine ⟨runCalls_entries_le cfg calls initStore (by simp [initStore]),
          runCalls_queried_mem cfg calls initStore,
          fun store k t => check_rate_limit_keys_mono cfg store k t,
          fun store k t hdeny => ⟨?_, check_rate_limit_key_mem cfg store k t⟩⟩
  by_cases hc : cfg.rateLimitRequests ≤
      ((store.entries k).filter fun u => decide (t - u < cfg.rateLimitPeriod)).length
  · simp [check_rate_limit, hc]
  · simp [check_rate_limit, hc] at hdeny

/-- Claim C10 witness: a concrete denied call — capacity 1, client "c"
already holding timestamp 30 at call time 50 — still prunes and keeps the
key present, and a queried key is present after a concrete run. -/
theorem rate_limit_store_invariants_witness :
    ("c" ∈ (runCalls cfgOne initStore [("c", 5)]).keys) ∧
    (check_rate_limit cfgOne storeC2 "c" 50).2.entries "c" =
      (storeC2.entries "c").filter (fun u => decide (50 - u < cfgOne.rateLimitPeriod)) := by
  refine ⟨(rate_limit_store_invariants cfgOne [("c", 5)]).2.1 "c" (by decide), ?_⟩
  exact ((rate_limit_store_invariants cfgOne []).2.2.2 storeC2 "c" 50
    (by norm_num [check_rate_limit, storeC2, cfgOne, List.filter])).1

/-- Prop-level reading of `validMessage`. -/
theorem validMessage_iff (m : Message) :
    validMessage m = true ↔
      (m.role = "user" ∨ m.role = "assistant" ∨ m.role = "system") ∧
      1 ≤ m.content.length ∧ m.content.length ≤ 10000 := by
  simp [validMessage, validRole, and_assoc, or_assoc]

/-- Prop-level reading of `validateOk`. -/
theorem validateOk_iff (cfg : Config) (r : RawChatRequest) :
    validateOk cfg r = true ↔
      (1 ≤ r.messages.length ∧ r.messages.length ≤ 50 ∧
       (∀ m ∈ r.messages,
         (m.role = "user" ∨ m.role = "assistant" ∨ m.role = "system") ∧
         1 ≤ m.content.length ∧ m.content.length ≤ 10000) ∧
       (∀ n ∈ r.max_tokens, 1 ≤ n ∧ n ≤ cfg.maxTokens) ∧
       (∀ t ∈ r.temperature, 0 ≤ t ∧ t ≤ 2)) := by
  obtain ⟨msgs, mo, mt, te⟩ := r
  simp only [validateOk]
  cases mt <;> cases te <;>
    simp [List.all_eq_true, validMessage_iff, and_assoc, Option.mem_def]

/-- Claim C3: validation accepts a raw chat request iff `messages` is
non-empty with at most 50 entries, every message has a role among
user/assistant/system and content length in [1, 10000], `max_tokens` when
present lies in [1, MAX_TOKENS], and `temperature` when present lies in
[0, 2]; this covers the boundary cases (50 messages, content length
10000, max_tokens = MAX_TOKENS accepted; 0 or 51 messages, content length
0 or 10001, max_tokens 0 or MAX_TOKENS + 1 rejected). The defaults 1024
and 1.0 are filled in for absent optional fields, and a rejected request
gets the 422 validation outcome without any further processing. -/
theorem validation_boundaries (cfg : Config) (r : RawChatRequest) :
    ((validate cfg r).isSome ↔
      (1 ≤ r.messages.length ∧ r.messages.length ≤ 50 ∧
       (∀ m ∈ r.messages,
         (m.role = "user" ∨ m.role = "assistant" ∨ m.role = "system") ∧
         1 ≤ m.content.length ∧ m.content.length ≤ 10000) ∧
       (∀ n ∈ r.max_tokens, 1 ≤ n ∧ n ≤ cfg.maxTokens) ∧
       (∀ t ∈ r.temperature, 0 ≤ t ∧ t ≤ 2))) ∧
    (∀ req, validate cfg r = some req →
       req.max_tokens = r.max_tokens.getD 1024 ∧
       req.temperature = r.temperature.getD 1) ∧
    (validate cfg r = none → ∀ store ip now upstream,
       handle_api_chat cfg store ip now upstream r =
         (.httpError 422 validationDetail, store)) := by
  refine ⟨?_, ?_, ?_⟩
  · rw [← validateOk_iff]
    unfold validate
    split <;> simp_all
  · intro req hv
    unfold validate at hv
    split at hv
    · injection hv with h
      subst h
      exact ⟨rfl, rfl⟩
    · exact absurd hv (by simp)
  · intro hv store ip now upstream
    simp [handle_api_chat, hv]

/-- Claim C3 witness: the concrete single-user-message request with all
optional fields absent is accepted. -/
theorem validation_boundaries_witness :
    (validate cfgDefault rawHello).isSome :=
  (validation_boundaries cfgDefault rawHello).1.mpr
    ⟨by decide, by decide, by decide, by simp [rawHello], by simp [rawHello]⟩

/-- Claim C1: for a request past validation and admitted by the rate
limiter, the handler invokes the upstream provider exactly once, at the
call record carrying the request's `messages` list verbatim (order, role
and content preserved) together with the resolved model, `max_tokens` and
`temperature`; when the provider replies with a first choice, the handler
answers 200 whose body takes `response` from that first choice's message
content, `model` from the provider-reported identifier, and `usage`
copied verbatim from the provider (`none` exactly when the provider
reports none). -/
theorem chat_success_shape (cfg : Config) (store : RateLimitStore)
    (ip : String) (now : ℚ) (upstream : UpstreamCall → Except String Completion)
    (req : ChatRequest) (comp : Completion) (choice : Choice) (rest : List Choice)
    (hadm : (check_rate_limit cfg store ip now).1 = true)
    (hup : upstream { model := resolveModel req.model, messages := req.messages,
                      max_tokens := req.max_tokens,
                      temperature := req.temperature } = .ok comp)
    (hchoices : comp.choices = choice :: rest) :
    (chat cfg store ip now upstream req).1 =
      .success { response := choice.message_content, model := comp.model,
                 usage := comp.usage } ∧
    ((chat cfg store ip now upstream req).1).status = 200 := by
  have h : (chat cfg store ip now upstream req).1 =
      .success { response := choice.message_content, model := comp.model,
                 usage := comp.usage } := by
    simp only [chat, hadm, hup, hchoices]
    simp
  exact ⟨h, by rw [h]; rfl⟩

/-- Claim C1 witness: spec §8 property 6 — the valid single-user-message
request against the stubbed upstream replying content "hi", model
`gpt-3.5-turbo`, usage 5/1/6 yields exactly
`200 {response:"hi", model:"gpt-3.5-turbo", usage:{5,1,6}}`. -/
theorem chat_success_shape_witness :
    (chat cfgDefault initStore "1.2.3.4" 0 upstreamStub reqHello).1 =
      .success { response := "hi", model := "gpt-3.5-turbo",
                 usage := some ⟨5, 1, 6⟩ } :=
  (chat_success_shape cfgDefault initStore "1.2.3.4" 0 upstreamStub reqHello
    completionHi ⟨"hi"⟩ [] (by decide) rfl rfl).1

/-- Claim C5: every failure of the upstream call — the SDK raising,
whatever the exception text `e` — and every malformed provider response
(no choices, making `choices[0]` raise) is answered with HTTP 500 whose
detail is the fixed generic string; the body is the same constant for
every failure, so it never carries the underlying exception text. -/
theorem upstream_failure_generic (cfg : Config) (store : RateLimitStore)
    (ip : String) (now : ℚ) (upstream : UpstreamCall → Except String Completion)
    (req : ChatRequest)
    (hadm : (check_rate_limit cfg store ip now).1 = true) :
    (∀ e, upstream { model := resolveModel req.model, messages := req.messages,
                     max_tokens := req.max_tokens,
                     temperature := req.temperature } = .error e →
       (chat cfg store ip now upstream req).1 = .httpError 500 genericDetail) ∧
    (∀ comp, upstream { model := resolveModel req.model, messages := req.messages,
                        max_tokens := req.max_tokens,
                        temperature := req.temperature } = .ok comp →
       comp.choices = [] →
       (chat cfg store ip now upstream req).1 = .httpError 500 genericDetail) := by
  constructor
  · intro e hup
    simp only [chat, hadm, hup]
    simp
  · intro comp hup hch
    simp only [chat, hadm, hup, hch]
    simp

/-- Claim C5 witness: a stub upstream raising a transport failure makes
the handler answer 500 with the generic detail, not the exception
text. -/
theorem upstream_failure_generic_witness :
    (chat cfgDefault initStore "1.2.3.4" 0 upstreamDown reqHello).1 =
      .httpError 500 genericDetail :=
  (upstream_failure_generic cfgDefault initStore "1.2.3.4" 0 upstreamDown reqHello
    (by decide)).1 "Connection refused" rfl

/-- Claim C4: a request whose `model` is absent or outside the allow-list
is never rejected for that reason — validation is entirely independent of
the `model` field; for such a request the model forwarded upstream is the
default `gpt-3.5-turbo`; and the success response's `model` field is the
provider-reported identifier, not the requested one. -/
theorem model_fallback (cfg : Config) (raw : RawChatRequest)
    (hmodel : raw.model = none ∨ ∃ m, raw.model = some m ∧ m ∉ valid_models) :
    (∀ m' : Option String,
       (validate cfg raw).isSome ↔
         (validate cfg { raw with model := m' }).isSome) ∧
    (∀ req, validate cfg raw = some req →
       resolveModel req.model = "gpt-3.5-turbo") ∧
    (∀ store ip now upstream req comp choice rest,
       validate cfg raw = some req →
       (check_rate_limit cfg store ip now).1 = true →
       upstream { model := "gpt-3.5-turbo", messages := req.messages,
                  max_tokens := req.max_tokens,
                  temperature := req.temperature } = .ok comp →
       comp.choices = choice :: rest →
       (chat cfg store ip now upstream req).1 =
         .success { response := choice.message_content, model := comp.model,
                    usage := comp.usage }) := by
  have hres : ∀ req, validate cfg raw = some req →
      resolveModel req.model = "gpt-3.5-turbo" := by
    intro req hv
    unfold validate at hv
    split at hv
    · injection hv with h
      subst h
      rcases hmodel with hnone | ⟨m, hm, hnotin⟩
      · simp [hnone, resolveModel, valid_models]
      · simp [hm, resolveModel, hnotin]
    · exact absurd hv (by simp)
  refine ⟨?_, hres, ?_⟩
  · intro m'
    have hc : validateOk cfg { raw with model := m' } = validateOk cfg raw := rfl
    by_cases hok : validateOk cfg raw = true <;> simp [validate, hc, hok]
  · intro store ip now upstream req comp choice rest hv hadm hup hch
    rw [← hres req hv] at hup
    simp only [chat, hadm, hup, hch]
    simp

/-- Claim C4 witness: the single-message request asking for the
unsupported model "gpt-5" is accepted by validation, resolves to
`gpt-3.5-turbo` upstream, and the response carries the provider-reported
model. -/
theorem model_fallback_witness :
    (validate cfgDefault rawGpt5).isSome ∧
    (∀ req, validate cfgDefault rawGpt5 = some req →
      resolveModel req.model = "gpt-3.5-turbo") := by
  have h := model_fallback cfgDefault rawGpt5 (Or.inr ⟨"gpt-5", rfl, by decide⟩)
  exact ⟨(h.1 none).mpr (by decide), h.2.1⟩

/-- Claim C6 counterexample: client "c" is over the limit at time 30
under capacity 1 (the rate limiter, if consulted, denies), yet the
structurally invalid payload (zero messages) from that client receives
the 422 validation outcome, not the 429 rate-limit outcome — FastAPI
validates the body into `ChatRequest` before the handler, and hence
before `check_rate_limit`, ever runs. -/
theorem rate_limit_order_cex :
    (check_rate_limit cfgOne storeC "c" 30).1 = false ∧
    (handle_api_chat cfgOne storeC "c" 30 upstreamUnused rawInvalid).1 =
      .httpError 422 validationDetail ∧
    (handle_api_chat cfgOne storeC "c" 30 upstreamUnused rawInvalid).1 ≠
      .httpError 429 rateLimitDetail := by
  refine ⟨by norm_num [check_rate_limit, storeC, cfgOne, List.filter], by decide, by decide⟩

/-- Claim C6 (amended): for every incoming POST /api/chat request the
framework validates the payload before the handler consults the rate
limiter: a request failing validation terminates with a 422 client error,
leaves the rate-limit store untouched, and never reaches the upstream
client (the outcome is independent of the upstream function); a request
that passes validation and is denied by the limiter terminates with 429
and never reaches the upstream client; so a structurally invalid payload
from an over-limit client receives the validation outcome, and every
request that reaches the rate limiter has first passed validation. -/
theorem validation_precedes_rate_limit (cfg : Config) (store : RateLimitStore)
    (ip : String) (now : ℚ) (raw : RawChatRequest) :
    (validate cfg raw = none →
       ∀ u₁ u₂ : UpstreamCall → Except String Completion,
         handle_api_chat cfg store ip now u₁ raw =
           (.httpError 422 validationDetail, store) ∧
         handle_api_chat cfg store ip now u₁ raw =
           handle_api_chat cfg store ip now u₂ raw) ∧
    (∀ req, validate cfg raw = some req →
       (check_rate_limit cfg store ip now).1 = false →
       ∀ u₁ u₂ : UpstreamCall → Except String Completion,
         handle_api_chat cfg store ip now u₁ raw =
           (.httpError 429 rateLimitDetail, (check_rate_limit cfg store ip now).2) ∧
         handle_api_chat cfg store ip now u₁ raw =
           handle_api_chat cfg store ip now u₂ raw) := by
  constructor
  · intro hv u₁ u₂
    simp [handle_api_chat, hv]
  · intro req hv hdeny u₁ u₂
    simp [handle_api_chat, hv, chat, hdeny]

/-- Claim C6 witness: a valid request from over-limit client "c" gets the
429 outcome, identically for two different upstream stubs. -/
theorem validation_precedes_rate_limit_witness :
    handle_api_chat cfgOne storeC "c" 30 upstreamStub rawHello =
      (.httpError 429 rateLimitDetail, (check_rate_limit cfgOne storeC "c" 30).2) ∧
    handle_api_chat cfgOne storeC "c" 30 upstreamStub rawHello =
      handle_api_chat cfgOne storeC "c" 30 upstreamDown rawHello :=
  (validation_precedes_rate_limit cfgOne storeC "c" 30 rawHello).2 reqHello
    (by decide)
    (by norm_num [check_rate_limit, storeC, cfgOne, List.filter])
    upstreamStub upstreamDown

/-- Claim C8: `GET /health` always answers 200 with the static service
identity fields and takes no upstream probe at all (its embedding has no
upstream argument); `GET /api/status` answers 200 for every probe
outcome, and when the probe raises any error the error is swallowed into
`api_available = false` alongside the configured environment and
MAX_TOKENS. -/
theorem health_status_robust (cfg : Config) (environment : String) :
    health_check environment =
      (200, ⟨"healthy", "AI Chatbot", "1.0.0", environment⟩) ∧
    (∀ probe, (api_status cfg environment probe).1 = 200) ∧
    (∀ e, api_status cfg environment (.error e) =
      (200, ⟨false, environment, cfg.maxTokens⟩)) := by
  refine ⟨rfl, fun probe => ?_, fun e => rfl⟩
  cases probe <;> rfl
